import Mathlib

/-!
Verification of the Visionary screen-analysis backend
(`backend/ai_screen_reader.py`, `backend/app.py` and the CLI scripts)
against its natural-language specification.

The Python code is shallowly embedded: pure fragments become Lean
functions; the external collaborators (screen-capture backend, the OCR
engine, the Gemini model transport and `json.loads`) are modelled by
explicit outcome values or by executable Lean functions transcribing the
collaborator's documented behaviour.  Python `dict` values that originate
from `json.loads` are modelled by the `Json` inductive below; arbitrary
Python values appearing in result dictionaries are modelled by `PyVal`.
-/

namespace Visionary

/-- A parsed JSON value, as produced by Python's `json.loads`.
Numbers are modelled exactly as rationals (every JSON numeric literal
denotes a rational; no arithmetic is performed on them in this code, so
the binary-float rounding that Python applies is irrelevant to every
property proved here).  Objects keep their key/value pairs in source
order, as Python dicts do. -/
inductive Json where
  | null : Json
  | bool : Bool → Json
  | num : Rat → Json
  | str : String → Json
  | arr : List Json → Json
  | obj : List (String × Json) → Json

/-- `d.get(k)` on a Python dict parsed from JSON: first binding wins
(duplicate keys cannot survive `json.loads`, which keeps the last one,
but parsed objects here are used with distinct keys). -/
def lookupKey (kvs : List (String × Json)) (k : String) : Option Json :=
  (kvs.find? (fun p => p.1 == k)).map Prod.snd

/-- Python truthiness of a JSON-shaped value (`bool(x)`). -/
def Json.truthy : Json → Bool
  | Json.null => false
  | Json.bool b => b
  | Json.num q => if q = 0 then false else true
  | Json.str s => if s = "" then false else true
  | Json.arr xs => if xs.isEmpty then false else true
  | Json.obj kvs => if kvs.isEmpty then false else true

/-- The key list of a JSON object (`list(d.keys())`); `[]` on non-objects. -/
def Json.objKeys : Json → List String
  | Json.obj kvs => kvs.map Prod.fst
  | _ => []

/-! ### A model of `json.loads`

An executable recursive-descent parser for (strict-mode) JSON, used as
the model of Python's `json.loads`.  Recursion is bounded by an explicit
fuel argument; `json_loads` supplies fuel that dominates every chain of
recursive calls for the given input, so fuel exhaustion never occurs on
inputs the grammar accepts. -/

/-- The `{` character (used by name to keep braces out of literals). -/
def lbrace : Char := Char.ofNat 123

/-- The `}` character. -/
def rbrace : Char := Char.ofNat 125

def isWsChar (c : Char) : Bool :=
  c == ' ' || c == '\n' || c == '\r' || c == '\t'

def skipWs : List Char → List Char
  | [] => []
  | c :: cs => if isWsChar c then skipWs cs else c :: cs

def stripPrefixChars : List Char → List Char → Option (List Char)
  | [], cs => some cs
  | _ :: _, [] => none
  | p :: ps, c :: cs => if c == p then stripPrefixChars ps cs else none

def hexVal (c : Char) : Option Nat :=
  if '0' ≤ c ∧ c ≤ '9' then some (c.toNat - 48)
  else if 'a' ≤ c ∧ c ≤ 'f' then some (c.toNat - 87)
  else if 'A' ≤ c ∧ c ≤ 'F' then some (c.toNat - 55)
  else none

def escChar (e : Char) : Option Char :=
  if e == '"' then some '"'
  else if e == '\\' then some '\\'
  else if e == '/' then some '/'
  else if e == 'b' then some (Char.ofNat 8)
  else if e == 'f' then some (Char.ofNat 12)
  else if e == 'n' then some '\n'
  else if e == 'r' then some '\r'
  else if e == 't' then some '\t'
  else none

def parseStringBody : Nat → List Char → List Char → Option (String × List Char)
  | 0, _, _ => none
  | _ + 1, [], _ => none
  | f + 1, c :: rest, acc =>
    if c == '"' then some (String.mk acc.reverse, rest)
    else if c == '\\' then
      match rest with
      | [] => none
      | e :: rest2 =>
        if e == 'u' then
          match rest2 with
          | h1 :: h2 :: h3 :: h4 :: rest3 =>
            match hexVal h1, hexVal h2, hexVal h3, hexVal h4 with
            | some a, some b, some c2, some d =>
              parseStringBody f rest3 (Char.ofNat (((a * 16 + b) * 16 + c2) * 16 + d) :: acc)
            | _, _, _, _ => none
          | _ => none
        else
          match escChar e with
          | some ec => parseStringBody f rest2 (ec :: acc)
          | none => none
    else if c.toNat < 32 then none
    else parseStringBody f rest (c :: acc)

def takeDigits : List Char → List Nat × List Char
  | [] => ([], [])
  | c :: cs =>
    if c.isDigit then
      let p := takeDigits cs
      ((c.toNat - 48) :: p.1, p.2)
    else ([], c :: cs)

def digitsToNat (ds : List Nat) : Nat := ds.foldl (fun a d => a * 10 + d) 0

/-- The exact rational value of a JSON numeric literal with optional
sign, fractional digits and (signed) decimal exponent. -/
def ratOfParts (neg : Bool) (ids fds : List Nat) (eneg : Bool) (e : Nat) : Rat :=
  let base : Int := Int.ofNat (digitsToNat ids * 10 ^ fds.length + digitsToNat fds)
  let signed : Int := if neg then -base else base
  if eneg then mkRat signed (10 ^ fds.length * 10 ^ e)
  else mkRat (signed * Int.ofNat (10 ^ e)) (10 ^ fds.length)

def parseExpPart (neg : Bool) (ids fds : List Nat) (cs : List Char) :
    Option (Json × List Char) :=
  match cs with
  | c :: rest =>
    if c == 'e' || c == 'E' then
      let p : Bool × List Char :=
        match rest with
        | '-' :: r => (true, r)
        | '+' :: r => (false, r)
        | _ => (false, rest)
      match takeDigits p.2 with
      | ([], _) => none
      | (eds, cs2) => some (Json.num (ratOfParts neg ids fds p.1 (digitsToNat eds)), cs2)
    else some (Json.num (ratOfParts neg ids fds false 0), c :: rest)
  | [] => some (Json.num (ratOfParts neg ids fds false 0), [])

def parseNumber (cs : List Char) : Option (Json × List Char) :=
  let p : Bool × List Char :=
    match cs with
    | '-' :: rest => (true, rest)
    | _ => (false, cs)
  match takeDigits p.2 with
  | ([], _) => none
  | (ids, cs2) =>
    if 1 < ids.length ∧ ids.headD 1 = 0 then none
    else
      match cs2 with
      | '.' :: rest =>
        match takeDigits rest with
        | ([], _) => none
        | (fds, cs3) => parseExpPart p.1 ids fds cs3
      | _ => parseExpPart p.1 ids [] cs2

mutual

def parseValue : Nat → List Char → Option (Json × List Char)
  | 0, _ => none
  | f + 1, cs =>
    match skipWs cs with
    | [] => none
    | c :: rest =>
      if c == lbrace then parseObjectBody f rest
      else if c == '[' then parseArrayBody f rest
      else if c == '"' then
        match parseStringBody f rest [] with
        | some (s, rest2) => some (Json.str s, rest2)
        | none => none
      else if c == 't' then
        match stripPrefixChars ['r', 'u', 'e'] rest with
        | some rest2 => some (Json.bool true, rest2)
        | none => none
      else if c == 'f' then
        match stripPrefixChars ['a', 'l', 's', 'e'] rest with
        | some rest2 => some (Json.bool false, rest2)
        | none => none
      else if c == 'n' then
        match stripPrefixChars ['u', 'l', 'l'] rest with
        | some rest2 => some (Json.null, rest2)
        | none => none
      else parseNumber (c :: rest)

def parseObjectBody : Nat → List Char → Option (Json × List Char)
  | 0, _ => none
  | f + 1, cs =>
    match skipWs cs with
    | [] => none
    | c :: rest =>
      if c == rbrace then some (Json.obj [], rest)
      else parseMembers f (c :: rest) []

def parseMembers : Nat → List Char → List (String × Json) → Option (Json × List Char)
  | 0, _, _ => none
  | f + 1, cs, acc =>
    match skipWs cs with
    | '"' :: rest =>
      match parseStringBody f rest [] with
      | none => none
      | some (k, rest2) =>
        match skipWs rest2 with
        | ':' :: rest3 =>
          match parseValue f rest3 with
          | none => none
          | some (v, rest4) =>
            match skipWs rest4 with
            | ',' :: rest5 => parseMembers f rest5 (acc ++ [(k, v)])
            | c :: rest5 =>
              if c == rbrace then some (Json.obj (acc ++ [(k, v)]), rest5) else none
            | [] => none
        | _ => none
    | _ => none

def parseArrayBody : Nat → List Char → Option (Json × List Char)
  | 0, _ => none
  | f + 1, cs =>
    match skipWs cs with
    | ']' :: rest => some (Json.arr [], rest)
    | _ => parseElems f cs []

def parseElems : Nat → List Char → List Json → Option (Json × List Char)
  | 0, _, _ => none
  | f + 1, cs, acc =>
    match parseValue f cs with
    | none => none
    | some (v, rest) =>
      match skipWs rest with
      | ',' :: rest2 => parseElems f rest2 (acc ++ [v])
      | ']' :: rest2 => some (Json.arr (acc ++ [v]), rest2)
      | _ => none

end

/-- Model of Python's `json.loads s`: parse one JSON value and require
that only whitespace remains (otherwise Python raises "Extra data",
which the callers treat identically to any other `JSONDecodeError`). -/
def json_loads (s : String) : Option Json :=
  let cs := s.toList
  match parseValue (4 * cs.length + 16) cs with
  | some (j, rest) => if skipWs rest = [] then some j else none
  | none => none

/-! ### Scene Interpreter (`LLMInterface`, ai_screen_reader.py lines 134-333)

The Gemini transport is an external collaborator.  A call to
`self.model_instance.generate_content` either raises (network, auth,
API error — as do the `base64.b64decode` / `Image.open` steps preceding
it, all caught by the same outer `except`) or yields a response object
whose `.text` is an arbitrary string; `LLMOutcome` models exactly this
distinction. -/

inductive LLMOutcome where
  | failure : LLMOutcome
  | success : String → LLMOutcome

/-- A record emitted on the module logger; only the level and the fixed
prefix of the format string are modelled (the interpolated exception
text is unknowable statically). -/
inductive LogLevel where
  | info : LogLevel
  | warning : LogLevel
  | error : LogLevel
deriving DecidableEq

structure LogRecord where
  level : LogLevel
  tag : String
deriving DecidableEq

/-- `ActionCommand` (ai_screen_reader.py lines 34-41).  The fields hold
whatever (JSON-shaped) Python values the parsed response supplied;
`coordinates` is `none` exactly when the Python field is `None`, and
otherwise holds the members of the tuple built by `tuple(...)`. -/
structure ActionCommand where
  action_type : Json
  target : Json
  coordinates : Option (List Json)
  parameters : Json
  confidence : Json

/-- A character stripped by Python's `str.strip()` (ASCII range). -/
def pyStripChar (c : Char) : Bool :=
  c == ' ' || c == '\t' || c == '\n' || c == '\r' || c == Char.ofNat 11 || c == Char.ofNat 12

/-- Python `s.strip()`. -/
def pyStrip (s : String) : String :=
  String.mk (((s.toList.dropWhile pyStripChar).reverse.dropWhile pyStripChar).reverse)

/-- Python `s.startswith(pat)`. -/
def pyStartsWith (s pat : String) : Bool :=
  (stripPrefixChars pat.toList s.toList).isSome

/-- Python `s.endswith(pat)`. -/
def pyEndsWith (s pat : String) : Bool :=
  (stripPrefixChars pat.toList.reverse s.toList.reverse).isSome

/-- Python `s[n:]`. -/
def pyDropLeft (s : String) (n : Nat) : String :=
  String.mk (s.toList.drop n)

/-- Python `s[:-n]` (for `0 < n ≤ len(s)`). -/
def pyDropRight (s : String) (n : Nat) : String :=
  String.mk (s.toList.take (s.toList.length - n))

/-- Response-text normalization inlined in
`LLMInterface.analyze_screen_elements` (lines 195-200): strip, drop a
leading "```json" tag (7 characters) when present, drop a trailing
"```" when present, strip again. -/
def clean_response_elements (s : String) : String :=
  let t0 := pyStrip s
  let t1 := if pyStartsWith t0 "```json" then pyDropLeft t0 7 else t0
  let t2 := if pyEndsWith t1 "```" then pyDropRight t1 3 else t1
  pyStrip t2

/-- The identical normalization inlined in
`LLMInterface.interpret_screen_context` (lines 303-308). -/
def clean_response_context (s : String) : String :=
  let t0 := pyStrip s
  let t1 := if pyStartsWith t0 "```json" then pyDropLeft t0 7 else t0
  let t2 := if pyEndsWith t1 "```" then pyDropRight t1 3 else t1
  pyStrip t2

/-- Python `tuple(x)`: succeeds on iterables (`none` models the
`TypeError` raised on non-iterables, which the caller's outer `except`
turns into the fallback).  Iterating a string yields its characters as
1-character strings; iterating a dict yields its keys. -/
def pyTuple : Json → Option (List Json)
  | Json.arr xs => some xs
  | Json.str s => some (s.toList.map (fun c => Json.str (String.mk [c])))
  | Json.obj kvs => some (kvs.map (fun p => Json.str p.1))
  | _ => none

/-- The `coordinates=tuple(...) if ... else None` expression of line 210:
evaluate truthiness of `action_data.get('coordinates')` first; only a
truthy value is passed to `tuple`.  The outer `Option` is the exception
monad (a `TypeError` from `tuple` aborts the whole analysis). -/
def coordField (c : Json) : Option (Option (List Json)) :=
  if c.truthy then (pyTuple c).map some else some none

/-- One iteration of the `for action_data in ...` loop (lines 206-214):
`action_data.get(...)` raises `AttributeError` unless `action_data` is a
dict, which the outer `except` turns into the fallback. -/
def mkCommand : Json → Option ActionCommand
  | Json.obj a =>
    match coordField ((lookupKey a "coordinates").getD Json.null) with
    | none => none
    | some coords =>
      some
        { action_type := (lookupKey a "action_type").getD (Json.str "unknown")
          target := (lookupKey a "target").getD (Json.str "Unknown target")
          coordinates := coords
          parameters := (lookupKey a "parameters").getD (Json.obj [])
          confidence := (lookupKey a "confidence").getD (Json.num (mkRat 1 2)) }
  | _ => none

/-- The accumulation of the `for` loop in the `Option` exception monad:
the first raising iteration aborts the loop (and the partially built
`commands` list is discarded by the exception). -/
def mapOption (g : α → Option β) : List α → Option (List β)
  | [] => some []
  | a :: as =>
    match g a, mapOption g as with
    | some b, some bs => some (b :: bs)
    | _, _ => none

/-- Python iteration over the value of `suggested_actions` (any iterable
iterates; iterating a non-empty string or dict yields non-dict items on
which `.get` then raises, so those cases are kept distinct from
non-iterables only through the items they produce). -/
def iterateActions : Json → Option (List Json)
  | Json.arr xs => some xs
  | Json.str s => some (s.toList.map (fun c => Json.str (String.mk [c])))
  | Json.obj kvs => some (kvs.map (fun p => Json.str p.1))
  | _ => none

/-- The success branch of `analyze_screen_elements` after `json.loads`
returned the dict `kvs` (lines 206-214): read `suggested_actions`
(default `[]`), iterate, build one `ActionCommand` per item. -/
def analyze_success (kvs : List (String × Json)) : Option (List ActionCommand) :=
  match iterateActions ((lookupKey kvs "suggested_actions").getD (Json.arr [])) with
  | none => none
  | some actions => mapOption mkCommand actions

/-- `LLMInterface._get_fallback_commands` (lines 229-253). -/
def get_fallback_commands : List ActionCommand :=
  [ { action_type := Json.str "click"
      target := Json.str "Primary action button"
      coordinates := some [Json.num 400, Json.num 300]
      parameters := Json.obj [("button_text", Json.str "Action")]
      confidence := Json.num (mkRat 3 4) },
    { action_type := Json.str "type"
      target := Json.str "Input field"
      coordinates := some [Json.num 300, Json.num 200]
      parameters := Json.obj [("text", Json.str "input"), ("field_type", Json.str "text")]
      confidence := Json.num (mkRat 7 10) },
    { action_type := Json.str "scroll"
      target := Json.str "Page content"
      coordinates := none
      parameters := Json.obj [("direction", Json.str "down"), ("amount", Json.num 3)]
      confidence := Json.num (mkRat 13 20) } ]

/-- `LLMInterface.analyze_screen_elements` (lines 143-227), as a function
of the stored `last_analysis` attribute and of the transport outcome.
Returns the command list, the new `last_analysis` (updated only on the
fully successful path, since the assignment on line 217 runs after the
loop) and the emitted log records.  Totality of this function is the
embedding of the code's two-level `try/except` structure: every
exception path lands in `_get_fallback_commands`. -/
def analyze_screen_elements (last : Option Json) :
    LLMOutcome → List ActionCommand × Option Json × List LogRecord
  | LLMOutcome.failure =>
    (get_fallback_commands, last, [⟨LogLevel.error, "Gemini analysis failed"⟩])
  | LLMOutcome.success text =>
    match json_loads (clean_response_elements text) with
    | none =>
      (get_fallback_commands, last,
        [⟨LogLevel.warning, "Failed to parse Gemini response as JSON"⟩,
         ⟨LogLevel.warning, "Response text"⟩])
    | some (Json.obj kvs) =>
      match analyze_success kvs with
      | some cmds => (cmds, some (Json.obj kvs), [])
      | none =>
        (get_fallback_commands, last, [⟨LogLevel.error, "Gemini analysis failed"⟩])
    | some _ =>
      (get_fallback_commands, last, [⟨LogLevel.error, "Gemini analysis failed"⟩])

/-- `LLMInterface._get_fallback_interpretation` (lines 321-329). -/
def get_fallback_interpretation : Json :=
  Json.obj
    [ ("screen_type", Json.str "unknown"),
      ("primary_elements", Json.arr [Json.str "text_elements", Json.str "interactive_elements"]),
      ("suggested_actions", Json.arr [Json.str "click_element", Json.str "type_text"]),
      ("context", Json.str "Screen analysis completed with basic OCR detection"),
      ("confidence", Json.num (mkRat 3 5)) ]

/-- `LLMInterface.interpret_screen_context` (lines 255-319); the
`user_intent` argument only alters the prompt, not the result shape, so
it is omitted.  Returns the interpretation value (the parsed JSON value
as-is; the code does not check that it is a dict) and the log records. -/
def interpret_screen_context : LLMOutcome → Json × List LogRecord
  | LLMOutcome.failure =>
    (get_fallback_interpretation, [⟨LogLevel.error, "Gemini screen interpretation failed"⟩])
  | LLMOutcome.success text =>
    match json_loads (clean_response_context text) with
    | some j => (j, [])
    | none =>
      (get_fallback_interpretation,
        [⟨LogLevel.warning, "Failed to parse Gemini context response as JSON"⟩,
         ⟨LogLevel.warning, "Response text"⟩])

/-- `LLMInterface.get_detailed_analysis` (lines 331-333):
`getattr(self, 'last_analysis', \x7b\x7d)`. -/
def get_detailed_analysis (last : Option Json) : Json :=
  last.getD (Json.obj [])

/-! ### Frame Source and Preprocessor
(`ScreenCapture`, ai_screen_reader.py lines 43-87)

Pixel buffers are opaque to every property below; the cv2 primitives
composing `preprocess_image` are external collaborators, embedded as
free constructors so that the composition order of the source is kept
verbatim without inventing pixel semantics. -/

inductive Image where
  | raw : Nat → Image
  | grayscale : Image → Image
  | gaussianBlur : Image → Image
  | adaptiveThreshold : Image → Image
  | morphClose : Image → Image
deriving DecidableEq

/-- `ScreenCapture.preprocess_image` (lines 72-87): grayscale →
Gaussian blur → adaptive threshold → morphological close. -/
def preprocess_image (image : Image) : Image :=
  Image.morphClose (Image.adaptiveThreshold (Image.gaussianBlur (Image.grayscale image)))

/-! ### Text Detector (`OCRProcessor`, ai_screen_reader.py lines 89-132)

`pytesseract.image_to_data` is an external collaborator: it either
raises (Tesseract missing or erroring) or returns parallel arrays of
equal length, modelled as one list of per-box records.  `conf` is the
engine's native integer score on its 0-100 scale (with -1 for
non-word boxes), after the `int(...)` conversion of line 107. -/

structure OcrBox where
  text : String
  conf : Int
  left : Int
  top : Int
  width : Int
  height : Int
deriving DecidableEq

inductive OcrOutcome where
  | failure : OcrOutcome
  | success : List OcrBox → OcrOutcome

/-- One element dict built on lines 112-117: stripped text, bbox,
confidence divided to unit scale, integer center coordinates
(Python `//` is floor division). -/
structure TextElement where
  text : String
  x : Int
  y : Int
  w : Int
  h : Int
  confidence : Rat
  cx : Int
  cy : Int
deriving DecidableEq

/-- `OCRProcessor.extract_text_with_boxes` (lines 96-123): keep a box
when `confidence > 30 and text` (stripped text truthy); on any engine
error return `[]` after a warning. -/
def extract_text_with_boxes : OcrOutcome → List TextElement × List LogRecord
  | OcrOutcome.failure =>
    ([], [⟨LogLevel.warning, "OCR processing failed (Tesseract not available)"⟩])
  | OcrOutcome.success data =>
    (data.filterMap (fun b =>
      let text := pyStrip b.text
      if 30 < b.conf ∧ text ≠ "" then
        some
          { text := text
            x := b.left, y := b.top, w := b.width, h := b.height
            confidence := mkRat b.conf 100
            cx := b.left + Int.fdiv b.width 2
            cy := b.top + Int.fdiv b.height 2 }
      else none), [])

/-! ### Python values appearing in result dictionaries -/

/-- The Python values stored in the dictionaries that
`analyze_current_screen` and the Flask handlers return.  Values that
came out of `json.loads` are embedded unchanged via `jsonVal`. -/
inductive PyVal where
  | pyNone : PyVal
  | bool : Bool → PyVal
  | num : Rat → PyVal
  | str : String → PyVal
  | tuple : List PyVal → PyVal
  | list : List PyVal → PyVal
  | dict : List (String × PyVal) → PyVal
  | jsonVal : Json → PyVal

/-- The element dict as it appears in the result (lines 112-117). -/
def TextElement.toPy (e : TextElement) : PyVal :=
  PyVal.dict
    [ ("text", PyVal.str e.text),
      ("bbox", PyVal.tuple [PyVal.num e.x, PyVal.num e.y, PyVal.num e.w, PyVal.num e.h]),
      ("confidence", PyVal.num e.confidence),
      ("coordinates", PyVal.tuple [PyVal.num e.cx, PyVal.num e.cy]) ]

/-- The per-command dict built on lines 417-423. -/
def ActionCommand.toPy (c : ActionCommand) : PyVal :=
  PyVal.dict
    [ ("action_type", PyVal.jsonVal c.action_type),
      ("target", PyVal.jsonVal c.target),
      ("coordinates",
        match c.coordinates with
        | none => PyVal.pyNone
        | some xs => PyVal.tuple (xs.map PyVal.jsonVal)),
      ("parameters", PyVal.jsonVal c.parameters),
      ("confidence", PyVal.jsonVal c.confidence) ]

/-- `d.get(k, default)` on a result dictionary. -/
def result_get (result : List (String × PyVal)) (k : String) (default : PyVal) : PyVal :=
  match result.find? (fun p => p.1 == k) with
  | some p => p.2
  | none => default

/-- Python truthiness of a `PyVal` (`bool(x)`). -/
def pyTruthy : PyVal → Bool
  | PyVal.pyNone => false
  | PyVal.bool b => b
  | PyVal.num q => if q = 0 then false else true
  | PyVal.str s => if s = "" then false else true
  | PyVal.tuple xs => if xs.isEmpty then false else true
  | PyVal.list xs => if xs.isEmpty then false else true
  | PyVal.dict kvs => if kvs.isEmpty then false else true
  | PyVal.jsonVal j => j.truthy

/-- The check `result.get('success', True)` performed by the CLI
scripts (auto_screen_analysis.py line 54, screen_analysis_desktop.py
line 70), including Python truthiness of the looked-up value. -/
def cli_success_check (result : List (String × PyVal)) : Bool :=
  pyTruthy (result_get result "success" (PyVal.bool true))

/-! ### Analysis Orchestrator, single-shot path
(`AIScreenReader.analyze_current_screen`, ai_screen_reader.py
lines 393-440) -/

/-- The pipeline stages whose invocation order matters to the spec. -/
inductive StageCall where
  | capture : StageCall
  | preprocess : StageCall
  | ocr : StageCall
  | encode : StageCall
  | analyzeElements : StageCall
  | interpretContext : StageCall
deriving DecidableEq

/-- One invocation's external world: what the collaborators would
return if called.  `capture = none` models `capture_screen` returning
`None` (it catches its own exceptions, lines 68-70). -/
structure Env where
  now : Rat
  capture : Option Image
  ocr : OcrOutcome
  llm_analyze : LLMOutcome
  llm_interpret : LLMOutcome
  screenshot_b64 : String

structure AnalyzeOutput where
  result : List (String × PyVal)
  last_analysis : Option Json
  calls : List StageCall

/-- `AIScreenReader.analyze_current_screen` as a function of the stored
`last_analysis` and the environment.  `calls` records, in program
order, which pipeline stages were invoked.  When the interpretation is
not a dict, the `.get` calls building `summary` raise `AttributeError`,
which the outer `except` of line 438 turns into the error dict (the
interpolated `str(e)` message is not modelled beyond being a string). -/
def analyze_current_screen (last : Option Json) (env : Env) : AnalyzeOutput :=
  match env.capture with
  | none =>
    { result := [("error", PyVal.str "Failed to capture screen")]
      last_analysis := last
      calls := [StageCall.capture] }
  | some screenshot =>
    let _processed := preprocess_image screenshot
    let elements := (extract_text_with_boxes env.ocr).1
    let screenshot_b64 := env.screenshot_b64
    let analyzeRes := analyze_screen_elements last env.llm_analyze
    let commands := analyzeRes.1
    let last2 := analyzeRes.2.1
    let interpretation := (interpret_screen_context env.llm_interpret).1
    let detailed_analysis := get_detailed_analysis last2
    let calls := [StageCall.capture, StageCall.preprocess, StageCall.ocr,
                  StageCall.encode, StageCall.analyzeElements, StageCall.interpretContext]
    match interpretation with
    | Json.obj ikvs =>
      { result :=
          [ ("timestamp", PyVal.num env.now),
            ("elements", PyVal.list (elements.map TextElement.toPy)),
            ("commands", PyVal.list (commands.map ActionCommand.toPy)),
            ("interpretation", PyVal.jsonVal (Json.obj ikvs)),
            ("detailed_analysis", PyVal.jsonVal detailed_analysis),
            ("screenshot_b64", PyVal.str screenshot_b64),
            ("summary", PyVal.dict
              [ ("screen_type",
                  PyVal.jsonVal ((lookupKey ikvs "screen_type").getD (Json.str "unknown"))),
                ("application",
                  PyVal.jsonVal ((lookupKey ikvs "application_name").getD (Json.str "Unknown"))),
                ("context",
                  PyVal.jsonVal ((lookupKey ikvs "current_context").getD (Json.str "Screen analysis"))),
                ("elements_found", PyVal.num elements.length),
                ("commands_generated", PyVal.num commands.length),
                ("confidence",
                  PyVal.jsonVal ((lookupKey ikvs "confidence").getD (Json.num (mkRat 1 2)))) ]) ]
        last_analysis := last2
        calls := calls }
    | _ =>
      { result := [("error", PyVal.str "interpretation has no attribute get")]
        last_analysis := last2
        calls := calls }

/-! ### Orchestrator lifecycle state
(`AIScreenReader.__init__` / `start_monitoring` / `stop_monitoring`,
ai_screen_reader.py lines 338-361)

The mutable attributes of one `AIScreenReader` instance, together with
bookkeeping for the monitoring threads it has spawned: `next_tid` names
the thread `threading.Thread(...)` would create next, and `threads`
lists the spawned monitoring-loop threads that have not terminated.  A
loop thread only terminates after observing `is_running == False`, so a
state transition never removes a thread while `is_running` stays true. -/

structure ReaderState where
  last_analysis : Option Json
  is_running : Bool
  capture_thread : Option Nat
  next_tid : Nat
  threads : List Nat

/-- `AIScreenReader.__init__` (lines 338-343): `is_running = False`,
`capture_thread = None`, no `last_analysis` attribute yet. -/
def initial_reader : ReaderState :=
  { last_analysis := none
    is_running := false
    capture_thread := none
    next_tid := 0
    threads := [] }

/-- `AIScreenReader.start_monitoring` (lines 345-354): unconditionally
set `is_running = True`, create a fresh daemon thread running
`_monitoring_loop`, overwrite `capture_thread` with it and start it.
There is no already-running check; the `interval` argument only
parametrizes the spawned loop and is dropped here. -/
def start_monitoring (r : ReaderState) : ReaderState :=
  { r with
    is_running := true
    capture_thread := some r.next_tid
    next_tid := r.next_tid + 1
    threads := r.threads ++ [r.next_tid] }

/-- `AIScreenReader.stop_monitoring` (lines 356-361): set
`is_running = False`, then join `capture_thread` when one is recorded.
Joining blocks until that thread's loop observes the cleared flag and
exits, so the joined thread (and only that one) is gone when the call
returns. -/
def stop_monitoring (r : ReaderState) : ReaderState :=
  { r with
    is_running := false
    threads :=
      match r.capture_thread with
      | none => r.threads
      | some t => r.threads.filter (fun x => x != t) }

/-! ### Stop/join interleaving
(`stop_monitoring` with `_monitoring_loop`, lines 356-391)

A labelled transition system for one caller of `stop_monitoring`
interleaved with the single monitoring loop spawned by one
`start_monitoring`.  The loop alternates `while self.is_running` checks
(`checking`) with loop-body executions (`cycling`; one body is one
capture→OCR→model cycle, i.e. one analyzeOnce in the spec's terms,
whether it completes or lands in the `except` arm).  The caller first
clears the flag (line 358) and then returns only once `join()` observes
the loop thread exited (lines 359-360). -/

inductive LoopPhase where
  | checking : LoopPhase
  | cycling : LoopPhase
  | exited : LoopPhase
deriving DecidableEq

inductive MainPhase where
  | running : MainPhase
  | stopRequested : MainPhase
  | returned : MainPhase
deriving DecidableEq

structure MonitorSys where
  is_running : Bool
  loop : LoopPhase
  main : MainPhase
deriving DecidableEq

inductive MonLabel where
  | checkTrue : MonLabel
  | checkFalse : MonLabel
  | cycle : MonLabel
  | setFlag : MonLabel
  | joinReturn : MonLabel
deriving DecidableEq

inductive MonStep : MonLabel → MonitorSys → MonitorSys → Prop
  | checkTrue (s : MonitorSys) :
      s.loop = LoopPhase.checking → s.is_running = true →
      MonStep MonLabel.checkTrue s { s with loop := LoopPhase.cycling }
  | checkFalse (s : MonitorSys) :
      s.loop = LoopPhase.checking → s.is_running = false →
      MonStep MonLabel.checkFalse s { s with loop := LoopPhase.exited }
  | cycle (s : MonitorSys) :
      s.loop = LoopPhase.cycling →
      MonStep MonLabel.cycle s { s with loop := LoopPhase.checking }
  | setFlag (s : MonitorSys) :
      s.main = MainPhase.running →
      MonStep MonLabel.setFlag s { s with is_running := false, main := MainPhase.stopRequested }
  | joinReturn (s : MonitorSys) :
      s.main = MainPhase.stopRequested → s.loop = LoopPhase.exited →
      MonStep MonLabel.joinReturn s { s with main := MainPhase.returned }

def monStepAny (a b : MonitorSys) : Prop := ∃ l, MonStep l a b

/-- The system right after a single `start_monitoring`: flag set, loop
at its first `while` check, `stop_monitoring` not yet called. -/
def monitorStart : MonitorSys :=
  { is_running := true, loop := LoopPhase.checking, main := MainPhase.running }

def MonReachable : MonitorSys → MonitorSys → Prop :=
  Relation.ReflTransGen monStepAny

/-! ### Request Surface (`backend/app.py`)

Each Flask handler is embedded as a function of the process-wide
`screen_reader` global (`Option ReaderState`), the external environment
and the request payload.  Handlers that mutate the reader also return
its new value. -/

structure HttpResponse where
  status : Nat
  body : PyVal

/-- The module-level `screen_reader = None` (app.py line 17). -/
def screen_reader_initial : Option ReaderState := none

/-- `initialize_screen_reader` (app.py lines 33-54).  `api_key` is
`data.get('api_key')`; `if not api_key` also rejects an empty string.
The constructor itself is assumed not to raise (its body only stores
the key and configures the external client). -/
def initialize_route (reader : Option ReaderState) (api_key : Option String) :
    HttpResponse × Option ReaderState :=
  match api_key with
  | none => (⟨400, PyVal.dict [("error", PyVal.str "API key is required")]⟩, reader)
  | some k =>
    if k = "" then
      (⟨400, PyVal.dict [("error", PyVal.str "API key is required")]⟩, reader)
    else
      (⟨200, PyVal.dict
          [ ("status", PyVal.str "initialized"),
            ("message", PyVal.str "AI Screen Reader initialized successfully") ]⟩,
        some initial_reader)

/-- `analyze_screen_detailed` (app.py lines 56-77). -/
def analyze_screen_detailed_route (reader : Option ReaderState) (env : Env)
    (now_ts : Int) : HttpResponse × Option ReaderState :=
  match reader with
  | none =>
    (⟨400, PyVal.dict [("error", PyVal.str "Screen reader not initialized")]⟩, none)
  | some r =>
    let out := analyze_current_screen r.last_analysis env
    let r2 := some { r with last_analysis := out.last_analysis }
    if (out.result.map Prod.fst).contains "error" then
      (⟨500, PyVal.dict out.result⟩, r2)
    else
      (⟨200, PyVal.dict
          (out.result ++ [("analysis_id", PyVal.str ("analysis_" ++ toString now_ts))])⟩,
        r2)

/-- `explain_screen` (app.py lines 79-110). -/
def explain_route (reader : Option ReaderState) (env : Env) (now_iso : String) :
    HttpResponse :=
  match reader with
  | none => ⟨400, PyVal.dict [("error", PyVal.str "Screen reader not initialized")]⟩
  | some _r =>
    match env.capture with
    | none => ⟨500, PyVal.dict [("error", PyVal.str "Failed to capture screen")]⟩
    | some _img =>
      ⟨200, PyVal.dict
        [ ("timestamp", PyVal.str now_iso),
          ("explanation", PyVal.jsonVal (interpret_screen_context env.llm_interpret).1),
          ("screenshot_b64", PyVal.str env.screenshot_b64) ]⟩

/-- `start_monitoring` route (app.py lines 112-134). -/
def monitor_start_route (reader : Option ReaderState) (interval : Rat) :
    HttpResponse × Option ReaderState :=
  match reader with
  | none =>
    (⟨400, PyVal.dict [("error", PyVal.str "Screen reader not initialized")]⟩, none)
  | some r =>
    (⟨200, PyVal.dict
        [ ("status", PyVal.str "monitoring_started"),
          ("interval", PyVal.num interval),
          ("message", PyVal.str "Screen monitoring started successfully") ]⟩,
      some (start_monitoring r))

/-- `stop_monitoring` route (app.py lines 136-154). -/
def monitor_stop_route (reader : Option ReaderState) :
    HttpResponse × Option ReaderState :=
  match reader with
  | none =>
    (⟨400, PyVal.dict [("error", PyVal.str "Screen reader not initialized")]⟩, none)
  | some r =>
    (⟨200, PyVal.dict
        [ ("status", PyVal.str "monitoring_stopped"),
          ("message", PyVal.str "Screen monitoring stopped successfully") ]⟩,
      some (stop_monitoring r))

/-! ### Statement-side accessors -/

/-- A placeholder used only as the `List.getD` default in statements
about command lists; no theorem depends on its field values. -/
def blankCommand : ActionCommand :=
  { action_type := Json.null
    target := Json.null
    coordinates := none
    parameters := Json.null
    confidence := Json.null }

/-- Read `result['summary'][k]` from a result dictionary
(`none` when `summary` is missing, not a dict, or lacks `k`). -/
def summary_entry (result : List (String × PyVal)) (k : String) : Option PyVal :=
  match result_get result "summary" PyVal.pyNone with
  | PyVal.dict sm => (sm.find? (fun p => p.1 == k)).map Prod.snd
  | _ => none

/-! ## Theorems -/

/-- C1 (counterexample to the claim as stated): on a transport/API
failure the code logs at *error* level (`logger.error`, line 226), not
at warning level — the log record list contains a single error-level
record and no warning. -/
theorem C1_transport_logs_error :
    (analyze_screen_elements none LLMOutcome.failure).2.2
      = [⟨LogLevel.error, "Gemini analysis failed"⟩] := rfl

/-- C1 (amended): for every model response whose fence-stripped text
fails JSON parsing, and for every transport/API failure,
`analyze_screen_elements` returns exactly the fixed fallback command
set — 3 commands with action kinds click, type, scroll, constants
independent of the screen content — and `last_analysis` is unchanged;
the parse-failure path logs warnings while the transport-failure path
logs an error-level message; no path escapes the function (it is
total), so no exception propagates past its boundary. -/
theorem C1_fallback_on_failure :
    (∀ last s, json_loads (clean_response_elements s) = none →
        analyze_screen_elements last (LLMOutcome.success s)
          = (get_fallback_commands, last,
             [⟨LogLevel.warning, "Failed to parse Gemini response as JSON"⟩,
              ⟨LogLevel.warning, "Response text"⟩]))
    ∧ (∀ last, analyze_screen_elements last LLMOutcome.failure
          = (get_fallback_commands, last, [⟨LogLevel.error, "Gemini analysis failed"⟩]))
    ∧ get_fallback_commands.length = 3
    ∧ get_fallback_commands.map ActionCommand.action_type
        = [Json.str "click", Json.str "type", Json.str "scroll"] := by
  refine ⟨?_, fun last => rfl, rfl, rfl⟩
  intro last s h
  simp [analyze_screen_elements, h]

/-- C1 witness: a concrete non-JSON response takes the fallback path. -/
theorem C1_fallback_on_failure_witness :
    json_loads (clean_response_elements "I could not analyze the screen.") = none
    ∧ analyze_screen_elements none (LLMOutcome.success "I could not analyze the screen.")
        = (get_fallback_commands, none,
           [⟨LogLevel.warning, "Failed to parse Gemini response as JSON"⟩,
            ⟨LogLevel.warning, "Response text"⟩]) :=
  ⟨rfl, C1_fallback_on_failure.1 none "I could not analyze the screen." rfl⟩

/-- C3 (counterexample to the claim as stated): a response wrapped in
*untagged* triple-backtick fences keeps its leading fence after
normalization — only the trailing fence is removed — and therefore
fails to parse, although the inner text alone is valid JSON. -/
theorem C3_untagged_fence_not_stripped :
    clean_response_elements "```\n\x7b\"a\": 1\x7d\n```" = "```\n\x7b\"a\": 1\x7d"
    ∧ json_loads (clean_response_elements "```\n\x7b\"a\": 1\x7d\n```") = none
    ∧ json_loads "\x7b\"a\": 1\x7d" = some (Json.obj [("a", Json.num 1)]) :=
  ⟨rfl, rfl, rfl⟩

/-- C3 (amended): the normalization strips a leading fence only when it
carries the "json" tag (the exact prefix "```json"); a bare leading
"```" fence is left in place, while a trailing "```" fence is stripped
whenever present.  A response of the form "```json\n...\n```" therefore
parses to the inner JSON object, and the identical normalization is
applied in both `analyze_screen_elements` and
`interpret_screen_context`. -/
theorem C3_fence_stripping :
    clean_response_elements "```json\n\x7b\"a\": 1\x7d\n```" = "\x7b\"a\": 1\x7d"
    ∧ json_loads (clean_response_elements "```json\n\x7b\"a\": 1\x7d\n```")
        = some (Json.obj [("a", Json.num 1)])
    ∧ clean_response_elements "```\n\x7b\"a\": 1\x7d\n```" = "```\n\x7b\"a\": 1\x7d"
    ∧ clean_response_context = clean_response_elements :=
  ⟨rfl, rfl, rfl, rfl⟩

/-- C4: every element returned by `extract_text_with_boxes` has
non-empty (already stripped) text and unit-scale confidence no less
than 0.3 (the engine-side filter demands a native score strictly above
30); on OCR-engine unavailability or error the function returns the
empty list and logs a warning instead of raising. -/
theorem C4_ocr_filter :
    (∀ out el, el ∈ (extract_text_with_boxes out).1 →
        el.text ≠ "" ∧ mkRat 3 10 ≤ el.confidence)
    ∧ extract_text_with_boxes OcrOutcome.failure
        = ([], [⟨LogLevel.warning, "OCR processing failed (Tesseract not available)"⟩]) := by
  refine ⟨?_, rfl⟩
  intro out el hel
  cases out with
  | failure => simp [extract_text_with_boxes] at hel
  | success data =>
    simp only [extract_text_with_boxes, List.mem_filterMap] at hel
    obtain ⟨b, _hb, hbe⟩ := hel
    by_cases h : 30 < b.conf ∧ pyStrip b.text ≠ ""
    · rw [if_pos h] at hbe
      cases hbe
      refine ⟨h.2, ?_⟩
      rw [Rat.mkRat_eq_div, Rat.mkRat_eq_div]
      rw [div_le_div_iff₀ (by norm_num) (by norm_num)]
      have h31 : (31 : ℚ) ≤ (b.conf : ℚ) := by exact_mod_cast h.1
      push_cast
      linarith
    · rw [if_neg h] at hbe
      cases hbe

/-- C4 witness: a concrete box above the threshold survives the filter
with stripped text and confidence 0.8. -/
theorem C4_ocr_filter_witness :
    (⟨"hi", 1, 2, 10, 4, mkRat 80 100, 6, 4⟩ : TextElement)
        ∈ (extract_text_with_boxes (OcrOutcome.success [⟨" hi ", 80, 1, 2, 10, 4⟩])).1
    ∧ (⟨"hi", 1, 2, 10, 4, mkRat 80 100, 6, 4⟩ : TextElement).text ≠ ""
    ∧ mkRat 3 10 ≤ (⟨"hi", 1, 2, 10, 4, mkRat 80 100, 6, 4⟩ : TextElement).confidence := by
  have hmem : (⟨"hi", 1, 2, 10, 4, mkRat 80 100, 6, 4⟩ : TextElement)
      ∈ (extract_text_with_boxes (OcrOutcome.success [⟨" hi ", 80, 1, 2, 10, 4⟩])).1 := by
    decide
  have h := C4_ocr_filter.1 (OcrOutcome.success [⟨" hi ", 80, 1, 2, 10, 4⟩]) _ hmem
  exact ⟨hmem, h.1, h.2⟩

/-- C5: when the Frame Source yields no frame, `analyze_current_screen`
returns the capture-failure error dict at once, having invoked no stage
beyond the capture itself — no preprocessing, no OCR, no encoding and
no model call. -/
theorem C5_capture_failure (last : Option Json) (env : Env) (h : env.capture = none) :
    (analyze_current_screen last env).result
      = [("error", PyVal.str "Failed to capture screen")]
    ∧ (analyze_current_screen last env).calls = [StageCall.capture]
    ∧ StageCall.preprocess ∉ (analyze_current_screen last env).calls
    ∧ StageCall.ocr ∉ (analyze_current_screen last env).calls
    ∧ StageCall.analyzeElements ∉ (analyze_current_screen last env).calls
    ∧ StageCall.interpretContext ∉ (analyze_current_screen last env).calls := by
  simp [analyze_current_screen, h]

/-- C5 witness: a concrete environment whose capture fails. -/
theorem C5_capture_failure_witness :
    (analyze_current_screen none
        ⟨0, none, OcrOutcome.failure, LLMOutcome.failure, LLMOutcome.failure, ""⟩).result
      = [("error", PyVal.str "Failed to capture screen")]
    ∧ (analyze_current_screen none
        ⟨0, none, OcrOutcome.failure, LLMOutcome.failure, LLMOutcome.failure, ""⟩).calls
      = [StageCall.capture] := by
  have h := C5_capture_failure none
    ⟨0, none, OcrOutcome.failure, LLMOutcome.failure, LLMOutcome.failure, ""⟩ rfl
  exact ⟨h.1, h.2.1⟩

/-- C6 (counterexample to the claim as stated): starting twice from a
freshly constructed reader spawns two monitoring threads — both still
live, since the flag each loop checks is still `True` — and overwrites
`capture_thread` with the second one, so a second concurrent poll loop
*is* spawned. -/
theorem C6_double_start :
    ((start_monitoring (start_monitoring initial_reader)).threads).length = 2
    ∧ (start_monitoring (start_monitoring initial_reader)).is_running = true
    ∧ (start_monitoring (start_monitoring initial_reader)).capture_thread = some 1 :=
  ⟨rfl, rfl, rfl⟩

/-- C6 (amended): `start_monitoring` is not idempotent — it contains no
already-running check.  Every call unconditionally sets `is_running`,
spawns one fresh monitoring-loop thread and overwrites `capture_thread`
with it, so two calls without an intervening `stop_monitoring` leave
two concurrent poll loops, of which only the newest remains joinable
through `capture_thread`. -/
theorem C6_start_always_spawns (r : ReaderState) :
    (start_monitoring r).is_running = true
    ∧ (start_monitoring r).threads = r.threads ++ [r.next_tid]
    ∧ (start_monitoring r).capture_thread = some r.next_tid
    ∧ ((start_monitoring (start_monitoring r)).threads).length = r.threads.length + 2 := by
  refine ⟨rfl, rfl, rfl, ?_⟩
  simp [start_monitoring]

/-- C8: while the process-wide `screen_reader` global is still `None`
(its initial value), every analysis endpoint — `/api/analyze/detailed`,
`/api/explain`, `/api/monitor/start`, `/api/monitor/stop` — answers
with status 400 and the JSON error body, never a 500 and never an
unhandled exception (each handler is a total function). -/
theorem C8_uninitialized_returns_400 :
    screen_reader_initial = none
    ∧ (∀ env ts, (analyze_screen_detailed_route none env ts).1
        = ⟨400, PyVal.dict [("error", PyVal.str "Screen reader not initialized")]⟩)
    ∧ (∀ env iso, explain_route none env iso
        = ⟨400, PyVal.dict [("error", PyVal.str "Screen reader not initialized")]⟩)
    ∧ (∀ interval, (monitor_start_route none interval).1
        = ⟨400, PyVal.dict [("error", PyVal.str "Screen reader not initialized")]⟩)
    ∧ (monitor_stop_route none).1
        = ⟨400, PyVal.dict [("error", PyVal.str "Screen reader not initialized")]⟩ :=
  ⟨rfl, fun _ _ => rfl, fun _ _ => rfl, fun _ => rfl, rfl⟩

/-! ### Success-path mapping lemmas (claim C2) -/

theorem mapOption_length {α β : Type} {g : α → Option β} :
    ∀ {l : List α} {bs : List β}, mapOption g l = some bs → bs.length = l.length := by
  intro l
  induction l with
  | nil => intro bs h; simp [mapOption] at h; simp [← h]
  | cons a as ih =>
    intro bs h
    simp only [mapOption] at h
    cases hga : g a with
    | none => rw [hga] at h; cases h
    | some b =>
      rw [hga] at h
      cases hgas : mapOption g as with
      | none => rw [hgas] at h; cases h
      | some bs2 =>
        rw [hgas] at h
        cases h
        simp [ih hgas]

theorem mapOption_getD {α β : Type} {g : α → Option β} (dA : α) (dB : β) :
    ∀ {l : List α} {bs : List β}, mapOption g l = some bs →
      ∀ i, i < l.length → g (l.getD i dA) = some (bs.getD i dB) := by
  intro l
  induction l with
  | nil => intro bs _ i hi; simp at hi
  | cons a as ih =>
    intro bs h i hi
    simp only [mapOption] at h
    cases hga : g a with
    | none => rw [hga] at h; cases h
    | some b =>
      rw [hga] at h
      cases hgas : mapOption g as with
      | none => rw [hgas] at h; cases h
      | some bs2 =>
        rw [hgas] at h
        cases h
        cases i with
        | zero => simpa using hga
        | succ j =>
          simp only [List.getD_cons_succ]
          exact ih hgas j (by simpa using hi)

theorem mapOption_isSome {α β : Type} {g : α → Option β} :
    ∀ {l : List α}, (∀ a ∈ l, (g a).isSome = true) → (mapOption g l).isSome = true := by
  intro l
  induction l with
  | nil => intro _; rfl
  | cons a as ih =>
    intro h
    have hga := h a (List.mem_cons_self a as)
    have hgas := ih (fun x hx => h x (List.mem_cons_of_mem a hx))
    simp only [mapOption]
    cases hga2 : g a with
    | none => rw [hga2] at hga; cases hga
    | some b =>
      cases hgas2 : mapOption g as with
      | none => rw [hgas2] at hgas; cases hgas
      | some bs => rfl

/-- One loop iteration on a dict-shaped action object: the command's
fields and the coordinate handling, under the schema assumption that a
truthy `coordinates` entry is an array. -/
theorem mkCommand_obj_spec (f : List (String × Json))
    (hco : ((lookupKey f "coordinates").getD Json.null).truthy = true →
        ∃ xs, (lookupKey f "coordinates").getD Json.null = Json.arr xs) :
    ∃ c, mkCommand (Json.obj f) = some c
      ∧ c.action_type = (lookupKey f "action_type").getD (Json.str "unknown")
      ∧ c.target = (lookupKey f "target").getD (Json.str "Unknown target")
      ∧ c.parameters = (lookupKey f "parameters").getD (Json.obj [])
      ∧ c.confidence = (lookupKey f "confidence").getD (Json.num (mkRat 1 2))
      ∧ (((lookupKey f "coordinates").getD Json.null).truthy = false → c.coordinates = none)
      ∧ (∀ xs, (lookupKey f "coordinates").getD Json.null = Json.arr xs →
          ((lookupKey f "coordinates").getD Json.null).truthy = true →
          c.coordinates = some xs) := by
  cases htr : ((lookupKey f "coordinates").getD Json.null).truthy with
  | false =>
    have hmk : mkCommand (Json.obj f) = some
        { action_type := (lookupKey f "action_type").getD (Json.str "unknown")
          target := (lookupKey f "target").getD (Json.str "Unknown target")
          coordinates := none
          parameters := (lookupKey f "parameters").getD (Json.obj [])
          confidence := (lookupKey f "confidence").getD (Json.num (mkRat 1 2)) } := by
      simp [mkCommand, coordField, htr]
    exact ⟨_, hmk, rfl, rfl, rfl, rfl, fun _ => rfl,
      fun xs _ htr2 => Bool.noConfusion htr2⟩
  | true =>
    obtain ⟨xs, hxs⟩ := hco htr
    have htr2 : (Json.arr xs).truthy = true := hxs ▸ htr
    have hmk : mkCommand (Json.obj f) = some
        { action_type := (lookupKey f "action_type").getD (Json.str "unknown")
          target := (lookupKey f "target").getD (Json.str "Unknown target")
          coordinates := some xs
          parameters := (lookupKey f "parameters").getD (Json.obj [])
          confidence := (lookupKey f "confidence").getD (Json.num (mkRat 1 2)) } := by
      rw [mkCommand.eq_def]
      simp only [hxs, coordField, htr2, if_pos, pyTuple]
      rfl
    refine ⟨_, hmk, rfl, rfl, rfl, rfl, fun hf => Bool.noConfusion hf, ?_⟩
    intro ys hys _
    have harr : Json.arr xs = Json.arr ys := hxs ▸ hys
    cases harr
    rfl

/-- C2: on a response parsing to a dict whose `suggested_actions` is an
array of (schema-conforming) objects, `analyze_screen_elements` returns
one command per action, in order, taking each field from the action
object with the documented defaults for missing fields, and `None`
coordinates exactly for an absent-or-falsy `coordinates` entry. -/
theorem C2_success_mapping (last : Option Json) (s : String)
    (kvs : List (String × Json)) (actions : List Json)
    (hp : json_loads (clean_response_elements s) = some (Json.obj kvs))
    (ha : lookupKey kvs "suggested_actions" = some (Json.arr actions))
    (hschema : ∀ a ∈ actions, ∃ f, a = Json.obj f ∧
        (((lookupKey f "coordinates").getD Json.null).truthy = true →
          ∃ xs, (lookupKey f "coordinates").getD Json.null = Json.arr xs)) :
    ∃ cmds, (analyze_screen_elements last (LLMOutcome.success s)).1 = cmds
      ∧ cmds.length = actions.length
      ∧ ∀ i, i < actions.length → ∀ f, actions.getD i Json.null = Json.obj f →
          (cmds.getD i blankCommand).action_type
              = (lookupKey f "action_type").getD (Json.str "unknown")
          ∧ (cmds.getD i blankCommand).target
              = (lookupKey f "target").getD (Json.str "Unknown target")
          ∧ (cmds.getD i blankCommand).parameters
              = (lookupKey f "parameters").getD (Json.obj [])
          ∧ (cmds.getD i blankCommand).confidence
              = (lookupKey f "confidence").getD (Json.num (mkRat 1 2))
          ∧ (((lookupKey f "coordinates").getD Json.null).truthy = false →
              (cmds.getD i blankCommand).coordinates = none)
          ∧ (∀ xs, (lookupKey f "coordinates").getD Json.null = Json.arr xs →
              ((lookupKey f "coordinates").getD Json.null).truthy = true →
              (cmds.getD i blankCommand).coordinates = some xs) := by
  have hall : ∀ a ∈ actions, (mkCommand a).isSome = true := by
    intro a hamem
    obtain ⟨f, rfl, hcof⟩ := hschema a hamem
    obtain ⟨c, hc, _⟩ := mkCommand_obj_spec f hcof
    simp [hc]
  obtain ⟨cmds, hcmds⟩ := Option.isSome_iff_exists.mp (mapOption_isSome hall)
  have hrun : (analyze_screen_elements last (LLMOutcome.success s)).1 = cmds := by
    simp [analyze_screen_elements, hp, analyze_success, ha, iterateActions, hcmds]
  refine ⟨cmds, hrun, mapOption_length hcmds, ?_⟩
  intro i hi f hf
  have hg := mapOption_getD Json.null blankCommand hcmds i hi
  rw [hf] at hg
  obtain ⟨fmem, hfobj, hcof⟩ := hschema (actions.getD i Json.null)
    (by rw [List.getD_eq_getElem actions Json.null hi]; exact actions.getElem_mem hi)
  rw [hf] at hfobj
  cases hfobj
  obtain ⟨c, hc, h1, h2, h3, h4, h5, h6⟩ := mkCommand_obj_spec f hcof
  rw [hc] at hg
  have hceq : c = cmds.getD i blankCommand := Option.some.inj hg
  subst hceq
  exact ⟨h1, h2, h3, h4, h5, h6⟩

/-- C2 witness: a concrete schema-conforming response with two actions,
one carrying coordinates and one empty (all defaults). -/
theorem C2_success_mapping_witness :
    json_loads (clean_response_elements
        "\x7b\"suggested_actions\": [\x7b\"target\": \"OK\", \"coordinates\": [12, 34]\x7d, \x7b\x7d]\x7d")
      = some (Json.obj [("suggested_actions", Json.arr
          [ Json.obj [("target", Json.str "OK"),
              ("coordinates", Json.arr [Json.num 12, Json.num 34])],
            Json.obj [] ])])
    ∧ ∃ cmds, (analyze_screen_elements none (LLMOutcome.success
        "\x7b\"suggested_actions\": [\x7b\"target\": \"OK\", \"coordinates\": [12, 34]\x7d, \x7b\x7d]\x7d")).1
          = cmds
      ∧ cmds.length = 2 := by
  refine ⟨rfl, ?_⟩
  have hsch : ∀ a ∈ ([ Json.obj [("target", Json.str "OK"),
        ("coordinates", Json.arr [Json.num 12, Json.num 34])],
      Json.obj [] ] : List Json), ∃ f, a = Json.obj f ∧
        (((lookupKey f "coordinates").getD Json.null).truthy = true →
          ∃ xs, (lookupKey f "coordinates").getD Json.null = Json.arr xs) := by
    intro a hamem
    simp only [List.mem_cons, List.not_mem_nil, or_false] at hamem
    rcases hamem with rfl | rfl
    · exact ⟨_, rfl, fun _ => ⟨[Json.num 12, Json.num 34], rfl⟩⟩
    · exact ⟨_, rfl, fun hf => Bool.noConfusion hf⟩
  obtain ⟨cmds, hrun, hlen, _⟩ := C2_success_mapping none
    "\x7b\"suggested_actions\": [\x7b\"target\": \"OK\", \"coordinates\": [12, 34]\x7d, \x7b\x7d]\x7d"
    [("suggested_actions", Json.arr
        [ Json.obj [("target", Json.str "OK"),
            ("coordinates", Json.arr [Json.num 12, Json.num 34])],
          Json.obj [] ])]
    [ Json.obj [("target", Json.str "OK"),
        ("coordinates", Json.arr [Json.num 12, Json.num 34])],
      Json.obj [] ]
    rfl rfl hsch
  exact ⟨cmds, hrun, hlen⟩

/-! ### Stop/join lemmas (claim C7) -/

/-- Every step preserves "once `stop_monitoring` has returned, the loop
thread has exited". -/
theorem monStep_preserves_stopped {l : MonLabel} {a b : MonitorSys}
    (h : MonStep l a b)
    (ha : a.main = MainPhase.returned → a.loop = LoopPhase.exited) :
    b.main = MainPhase.returned → b.loop = LoopPhase.exited := by
  cases h with
  | checkTrue u h1 h2 =>
    intro hb
    rw [ha hb] at h1
    exact LoopPhase.noConfusion h1
  | checkFalse u h1 h2 => intro _; rfl
  | cycle u h1 =>
    intro hb
    rw [ha hb] at h1
    exact LoopPhase.noConfusion h1
  | setFlag u h1 => intro hb; exact MainPhase.noConfusion hb
  | joinReturn u h1 h2 => intro _; exact h2

theorem monReachable_stopped_inv {s : MonitorSys}
    (h : MonReachable monitorStart s) :
    s.main = MainPhase.returned → s.loop = LoopPhase.exited := by
  induction h with
  | refl => intro hm; exact MainPhase.noConfusion hm
  | tail _hab hbc ih =>
    obtain ⟨l, hstep⟩ := hbc
    exact monStep_preserves_stopped hstep ih

/-- After `stop_monitoring` has returned (and hence the loop has
exited), the system has no step at all: the loop is finished and the
stop caller is done. -/
theorem no_step_when_stopped {s t : MonitorSys}
    (hm : s.main = MainPhase.returned) (hl : s.loop = LoopPhase.exited) :
    ¬ monStepAny s t := by
  rintro ⟨l, hstep⟩
  cases hstep with
  | checkTrue u h1 h2 => rw [hl] at h1; exact LoopPhase.noConfusion h1
  | checkFalse u h1 h2 => rw [hl] at h1; exact LoopPhase.noConfusion h1
  | cycle u h1 => rw [hl] at h1; exact LoopPhase.noConfusion h1
  | setFlag u h1 => rw [hm] at h1; exact MainPhase.noConfusion h1
  | joinReturn u h1 h2 => rw [hm] at h1; exact MainPhase.noConfusion h1

theorem monReachable_stopped_fixed {s t : MonitorSys}
    (hm : s.main = MainPhase.returned) (hl : s.loop = LoopPhase.exited)
    (h : MonReachable s t) : t = s := by
  induction h with
  | refl => rfl
  | tail _hab hbc ih =>
    exact absurd (ih ▸ hbc) (no_step_when_stopped hm hl)

/-- C7: `stop_monitoring` returns only after the monitoring loop has
ceased — the join completes only once the loop thread has exited, and
from any state in which the stop call has returned, no further
loop-body execution (no further analyzeOnce cycle) can ever occur. -/
theorem C7_no_cycle_after_stop (s t u : MonitorSys)
    (hs : MonReachable monitorStart s) (hstop : s.main = MainPhase.returned)
    (hst : MonReachable s t) :
    ¬ MonStep MonLabel.cycle t u := by
  have hl := monReachable_stopped_inv hs hstop
  have ht := monReachable_stopped_fixed hstop hl hst
  subst ht
  intro hc
  exact no_step_when_stopped hstop hl ⟨MonLabel.cycle, hc⟩

/-- C7 witness: a concrete stop sequence — flag cleared, loop observes
it and exits, join returns — after which no cycle step is possible. -/
theorem C7_no_cycle_after_stop_witness :
    ¬ MonStep MonLabel.cycle
        ⟨false, LoopPhase.exited, MainPhase.returned⟩
        ⟨false, LoopPhase.exited, MainPhase.returned⟩ := by
  have h1 : MonStep MonLabel.setFlag monitorStart
      ⟨false, LoopPhase.checking, MainPhase.stopRequested⟩ :=
    MonStep.setFlag monitorStart rfl
  have h2 : MonStep MonLabel.checkFalse
      ⟨false, LoopPhase.checking, MainPhase.stopRequested⟩
      ⟨false, LoopPhase.exited, MainPhase.stopRequested⟩ :=
    MonStep.checkFalse _ rfl rfl
  have h3 : MonStep MonLabel.joinReturn
      ⟨false, LoopPhase.exited, MainPhase.stopRequested⟩
      ⟨false, LoopPhase.exited, MainPhase.returned⟩ :=
    MonStep.joinReturn _ rfl rfl
  have hreach : MonReachable monitorStart ⟨false, LoopPhase.exited, MainPhase.returned⟩ :=
    Relation.ReflTransGen.tail
      (Relation.ReflTransGen.tail
        (Relation.ReflTransGen.tail Relation.ReflTransGen.refl ⟨_, h1⟩) ⟨_, h2⟩) ⟨_, h3⟩
  exact C7_no_cycle_after_stop _ _ _ hreach rfl Relation.ReflTransGen.refl

/-! ### Result-dictionary key lemmas (claims C9, C10) -/

theorem result_get_not_mem (r : List (String × PyVal)) (k : String) (d : PyVal)
    (h : k ∉ r.map Prod.fst) : result_get r k d = d := by
  induction r with
  | nil => rfl
  | cons p r ih =>
    simp only [List.map_cons, List.mem_cons, not_or] at h
    have hne : (p.1 == k) = false := by
      rw [beq_eq_false_iff_ne]
      exact fun he => h.1 he.symm
    have hfind : List.find? (fun q => q.1 == k) (p :: r) = List.find? (fun q => q.1 == k) r :=
      List.find?_cons_of_neg r (by simp [hne])
    have hstep : result_get (p :: r) k d = result_get r k d := by
      simp only [result_get, hfind]
    rw [hstep]
    exact ih h.2

/-- When no `success` key is present, `result.get('success', True)` is
`True` and the CLI's success branch is taken. -/
theorem cli_check_of_no_success (r : List (String × PyVal))
    (h : "success" ∉ r.map Prod.fst) : cli_success_check r = true := by
  unfold cli_success_check
  rw [result_get_not_mem r "success" (PyVal.bool true) h]
  rfl

/-- C9: no dictionary `analyze_current_screen` can return — the success
shape, the capture-failure shape or the exception shape — contains a
`success` key, so the CLI scripts' `result.get('success', True)` check
is `True` on every possible return value and their failure branch is
dead code. -/
theorem C9_no_success_key (last : Option Json) (env : Env) :
    "success" ∉ (analyze_current_screen last env).result.map Prod.fst
    ∧ cli_success_check (analyze_current_screen last env).result = true := by
  have hnk : "success" ∉ (analyze_current_screen last env).result.map Prod.fst := by
    cases hc : env.capture with
    | none =>
      have hres : (analyze_current_screen last env).result
          = [("error", PyVal.str "Failed to capture screen")] := by
        simp [analyze_current_screen, hc]
      rw [hres]; simp
    | some img =>
      cases hj : (interpret_screen_context env.llm_interpret).1
      case obj ikvs =>
        have hkeys : (analyze_current_screen last env).result.map Prod.fst
            = ["timestamp", "elements", "commands", "interpretation",
               "detailed_analysis", "screenshot_b64", "summary"] := by
          simp [analyze_current_screen, hc, hj]
        rw [hkeys]; simp
      all_goals {
        have hres : (analyze_current_screen last env).result
            = [("error", PyVal.str "interpretation has no attribute get")] := by
          simp [analyze_current_screen, hc, hj]
        rw [hres]; simp }
  exact ⟨hnk, cli_check_of_no_success _ hnk⟩

/-- C10: the fallback interpretation carries exactly the keys
`screen_type`, `primary_elements`, `suggested_actions`, `context`,
`confidence` — in particular no `application_name`, `current_context`
or `visible_elements` — so whenever `interpret_screen_context` fell
back, the summary reports application "Unknown", context
"Screen analysis" (the lookup default, since the fallback's own
`context` value is never consulted for this key) and confidence 0.60
(the fallback's value). -/
theorem C10_fallback_summary :
    get_fallback_interpretation.objKeys
      = ["screen_type", "primary_elements", "suggested_actions", "context", "confidence"]
    ∧ "application_name" ∉ get_fallback_interpretation.objKeys
    ∧ "current_context" ∉ get_fallback_interpretation.objKeys
    ∧ "visible_elements" ∉ get_fallback_interpretation.objKeys
    ∧ (∀ last env img, env.capture = some img →
        (interpret_screen_context env.llm_interpret).1 = get_fallback_interpretation →
          summary_entry (analyze_current_screen last env).result "application"
              = some (PyVal.jsonVal (Json.str "Unknown"))
          ∧ summary_entry (analyze_current_screen last env).result "context"
              = some (PyVal.jsonVal (Json.str "Screen analysis"))
          ∧ summary_entry (analyze_current_screen last env).result "confidence"
              = some (PyVal.jsonVal (Json.num (mkRat 3 5)))) := by
  refine ⟨rfl, by decide, by decide, by decide, ?_⟩
  intro last env img hc hj
  refine ⟨?_, ?_, ?_⟩ <;>
    simp [summary_entry, result_get, analyze_current_screen, hc, hj,
      get_fallback_interpretation, List.find?, lookupKey]

/-- C10 witness: a concrete environment whose context call fails in
transport, so the interpretation is the fallback. -/
theorem C10_fallback_summary_witness :
    ((⟨0, some (Image.raw 0), OcrOutcome.failure, LLMOutcome.failure,
        LLMOutcome.failure, ""⟩ : Env)).capture = some (Image.raw 0)
    ∧ (interpret_screen_context LLMOutcome.failure).1 = get_fallback_interpretation
    ∧ summary_entry (analyze_current_screen none
        ⟨0, some (Image.raw 0), OcrOutcome.failure, LLMOutcome.failure,
          LLMOutcome.failure, ""⟩).result "application"
      = some (PyVal.jsonVal (Json.str "Unknown")) := by
  refine ⟨rfl, rfl, ?_⟩
  exact (C10_fallback_summary.2.2.2.2 none
    ⟨0, some (Image.raw 0), OcrOutcome.failure, LLMOutcome.failure, LLMOutcome.failure, ""⟩
    (Image.raw 0) rfl rfl).1

end Visionary
